import Mathlib

/-!
Shallow embedding of the Super13 repository's dispatch / failover / streaming
logic and its raster boundary scan, together with theorems checking the
natural-language specification against it.

Files embedded:
* `src/server/g4f_python_provider.py` — namespace `G4F`
  (`get_chat_response`, `get_demo_response`, `stream_response_generator`,
   the `/python/chat` and `/python/chat/stream` endpoints);
* `src/server/stream_server.py` — namespace `StreamServer`
  (the `/test-provider/<name>` endpoint);
* `src/converters/raster2svg.py` — namespace `Raster2Svg` (`simple_trace`).

External provider backends are modelled as an oracle ("behavior") mapping the
invoked capability name, model string and effective timeout to either a
response (success) or `none` (the call raised).  Timeouts are rationals,
standing in for Python floats on the exact small values the code manipulates.
-/

namespace G4F

/-- Python `str.lower` restricted to the character ranges occurring in this
code base: ASCII `A`-`Z` and Cyrillic `А`-`Я`, `Ё`. -/
def pyLowerChar (c : Char) : Char :=
  if 'A' ≤ c ∧ c ≤ 'Z' then Char.ofNat (c.toNat + 32)
  else if 'А' ≤ c ∧ c ≤ 'Я' then Char.ofNat (c.toNat + 32)
  else if c = 'Ё' then 'ё'
  else c

/-- Python `str.lower` on a whole string (see `pyLowerChar`). -/
def pyLower (s : String) : String := ⟨s.data.map pyLowerChar⟩

/-- Helper for the Python substring test: does `needle` occur in the list? -/
def substrAux (needle : List Char) : List Char → Bool
  | [] => needle.isPrefixOf []
  | h :: t => needle.isPrefixOf (h :: t) || substrAux needle t

/-- Python `needle in hay` on strings. -/
def substrB (needle hay : String) : Bool := substrAux needle.data hay.data

/-- The keys of `provider_map` in `get_chat_response`
(`g4f_python_provider.py`, lines 27-36). -/
def provider_map_names : List String :=
  ["Qwen_Qwen_2_72B", "Qwen_Qwen_2_5_Max", "Qwen_Qwen_2_5", "Qwen_Qwen_2_5M",
   "FreeGpt", "HuggingChat", "DeepInfra", "You"]

/-- `backup_providers` list from `get_chat_response` (line 103). -/
def backup_providers : List String :=
  ["Qwen_Qwen_2_72B", "Qwen_Qwen_2_5_Max", "Qwen_Qwen_2_5", "Qwen_Qwen_2_5M"]

/-- The model-selection chain of `get_chat_response` (lines 45-60), keyed on
the requested provider name (not on the capability actually used). -/
def modelFor (sp : String) : String :=
  if sp == "Qwen_Qwen_2_5_Max" then "qwen-max"
  else if sp == "Qwen_Qwen_2_5" then "qwen-2.5"
  else if sp == "Qwen_Qwen_2_5M" then "qwen-2.5"
  else if sp == "Qwen_Qwen_2_72B" then "qwen-2.5-72b"
  else if sp == "You" then "gpt-4o-mini"
  else if sp == "HuggingChat" then "llama-3.1-70b"
  else if sp == "Blackbox" then "blackbox"
  else "gpt-4o-mini"

/-- Backup-model selection inside the failover loop (lines 111-116). -/
def backupModelFor (b : String) : String :=
  if b == "Qwen_Qwen_2_5_Max" then "qwen-max"
  else if b == "Qwen_Qwen_2_72B" then "qwen-2.5-72b"
  else "qwen-2.5"

/-- The timeout-floor mutation of `get_chat_response` (lines 66-69): the
caller timeout is raised to 45s for `Qwen_Qwen_2_72B` and to 30s for
`Qwen_Qwen_2_5_Max` / `Qwen_Qwen_2_5`; otherwise left unchanged. -/
def floorTimeout (sp : String) (t : ℚ) : ℚ :=
  if sp == "Qwen_Qwen_2_72B" then max t 45
  else if sp == "Qwen_Qwen_2_5_Max" || sp == "Qwen_Qwen_2_5" then max t 30
  else t

/-- `provider_map.get(specific_provider, Qwen_Qwen_2_72B)` (line 42): the name
of the capability object actually invoked for the initial attempt. -/
def capabilityOf (sp : String) : String :=
  if provider_map_names.contains sp then sp else "Qwen_Qwen_2_72B"

/-- The non-streaming result dictionary of `get_chat_response`
(`success`, `response`, `provider`, `model`; the wall-clock `elapsed` field is
not modelled). -/
structure ChatResult where
  success : Bool
  response : String
  provider : String
  model : String
deriving DecidableEq, Repr

/-- One invocation of `g4f.ChatCompletion.create`: which capability object was
called, with which model string and which timeout. -/
structure Attempt where
  provider : String
  model : String
  timeout : ℚ
deriving DecidableEq, Repr

/-- Oracle for the external providers: capability name, model, timeout ↦
`some text` when the call returns, `none` when it raises. -/
abbrev Behavior := String → String → ℚ → Option String

/-- The total-exhaustion dictionary of `get_chat_response` (lines 150-156). -/
def exhaustResult (sp : String) : ChatResult :=
  { success := true
    response := "Извините, возникла проблема с провайдером " ++ sp ++ ". Попробуйте еще раз."
    provider := sp ++ "_fallback"
    model := "fallback" }

/-- The `for backup_provider in backup_providers` loop of `get_chat_response`
(lines 105-147): walk the list, skip the name equal to `specific_provider`,
return the first success, fall through to the exhaustion dictionary.  The
timeout `t` is the one computed for the initial provider; the loop reuses it
unchanged (line 123).  `acc` accumulates the attempts made so far. -/
def tryBackups (beh : Behavior) (sp : String) (t : ℚ) (acc : List Attempt) :
    List String → ChatResult × List Attempt
  | [] => (exhaustResult sp, acc)
  | b :: rest =>
    if b == sp then tryBackups beh sp t acc rest
    else
      match beh b (backupModelFor b) t with
      | some text =>
        ({ success := true, response := text, provider := b, model := backupModelFor b },
         acc ++ [⟨b, backupModelFor b, t⟩])
      | none => tryBackups beh sp t (acc ++ [⟨b, backupModelFor b, t⟩]) rest

/-- `get_chat_response` (non-streaming mode, lines 17-156): choose the
provider (default `Qwen_Qwen_2_72B`, unknown names fall back to the
`Qwen_Qwen_2_72B` capability while keeping their label), pick the model,
apply the timeout floor, attempt, and on exception walk the backup list.
Returns the result dictionary together with the trace of attempts made. -/
def get_chat_response (beh : Behavior) (message : String)
    (specific_provider : Option String) (timeout : ℚ) :
    ChatResult × List Attempt :=
  let sp := specific_provider.getD "Qwen_Qwen_2_72B"
  let model := modelFor sp
  let t := floorTimeout sp timeout
  let cap := capabilityOf sp
  match beh cap model t with
  | some text =>
    ({ success := true, response := text, provider := sp, model := model },
     [⟨cap, model, t⟩])
  | none => tryBackups beh sp t [⟨cap, model, t⟩] backup_providers

/-- `get_demo_response` (lines 158-169): keyword-matched canned replies. -/
def get_demo_response (message : String) : String :=
  let ml := pyLower message
  if ["привет", "hello", "hi", "здравствуй"].any (fun w => substrB w ml) then
    "Привет! Рад вас видеть! 😊 Я BOOOMERANGS AI - ваш творческий помощник. Чем могу помочь?"
  else if ["что такое", "расскажи о", "что ты", "о себе"].any (fun w => substrB w ml) then
    "Привет! Меня зовут BOOOMERANGS AI, и я ваш творческий помощник!\n\n🚀 **Мои суперспособности:**\n• Создаю уникальные изображения по описанию\n• Превращаю картинки в векторную графику\n• Готовлю дизайны для вышивальных машин\n• Консультирую по творческим проектам\n• Просто хорошо общаюсь на любые темы!\n\nЧем могу помочь?"
  else if ["создай", "нарисуй", "сгенерируй"].any (fun w => substrB w ml) then
    "Отлично! Опишите подробнее что вы хотите создать, и я сгенерирую для вас уникальное изображение! 🎨"
  else
    "Понял! Чем конкретно могу помочь? Готов создать изображения, векторизовать картинки или просто поболтать! 😊"

/-- A provider chunk stream as the relay consumes it: the chunks the iterator
yields, then optionally an exception (with its message) raised on the next
read.  `raises = none` means the stream is exhausted cleanly. -/
structure StreamSource where
  chunks : List String
  raises : Option String
deriving DecidableEq, Repr

/-- Result of `get_chat_response(..., use_stream=True)` as seen by the relay:
either the streaming dictionary (lines 83-89 / 129-135) or, after total
exhaustion, the plain fallback dictionary (lines 150-156), which has no
`streaming` key. -/
inductive StreamResult where
  | streaming (provider model : String) (src : StreamSource)
  | plain (res : ChatResult)
deriving DecidableEq, Repr

/-- One server-sent-event frame of `stream_response_generator`, identified by
the keys of the JSON object it carries. -/
inductive SEvent where
  | start (provider : String)
  | chunk (content provider : String)
  | error (msg : String)
  | text (content provider : String)
  | done (full_text provider model : String)
deriving DecidableEq, Repr

/-- The HTML-block error message of `stream_response_generator` (line 184). -/
def htmlBlockMsg : String :=
  "Провайдер вернул HTML вместо текста — возможно, заблокирован"

/-- Case-insensitive test for the substring `<html` (line 183). -/
def htmlIn (ch : String) : Bool := substrB "<html" (pyLower ch)

/-- The chunk loop of `stream_response_generator` (lines 181-219): emit chunk
events while accumulating; on an HTML chunk emit the error event, break, and
fall through to the `done` event; on clean exhaustion emit `done`; if the
stream raises, the surrounding `except` emits an error frame, the demo text
frame and an `error-mode` done frame. -/
def streamLoop (message p m : String) (raises : Option String) :
    List String → String → List SEvent
  | [], acc =>
    match raises with
    | none => [.done acc p m]
    | some e =>
      [.error e,
       .text (get_demo_response message) "BOOOMERANGS-Error",
       .done (get_demo_response message) "BOOOMERANGS-Error" "error-mode"]
  | ch :: rest, acc =>
    if htmlIn ch then [.error htmlBlockMsg, .done acc p m]
    else .chunk ch p :: streamLoop message p m raises rest (acc ++ ch)

/-- `stream_response_generator` (lines 171-219) given the dispatch result.
The `start` frame always comes first.  A streaming result enters the chunk
loop; a plain result (no `streaming` key) takes the `else` branch at lines
204-210 — the dictionaries returned by `get_chat_response` never contain an
`error` key, so the branch at lines 195-203 is unreachable. -/
def relayEvents (message : String) : StreamResult → List SEvent
  | .streaming p m src => .start p :: streamLoop message p m src.raises src.chunks ""
  | .plain res =>
    [.start res.provider,
     .text res.response res.provider,
     .done res.response res.provider res.model]

/-- Oracle for a streaming capability call: `some src` when the call returns a
chunk iterator, `none` when it raises at call time. -/
abbrev StreamBehavior := String → String → ℚ → Option StreamSource

/-- The backup loop of `get_chat_response` in streaming mode (lines 105-147,
`use_stream=True` branch). -/
def tryBackupsStream (sbeh : StreamBehavior) (sp : String) (t : ℚ) :
    List String → StreamResult
  | [] => .plain (exhaustResult sp)
  | b :: rest =>
    if b == sp then tryBackupsStream sbeh sp t rest
    else
      match sbeh b (backupModelFor b) t with
      | some src => .streaming b (backupModelFor b) src
      | none => tryBackupsStream sbeh sp t rest

/-- `get_chat_response(..., use_stream=True)` (lines 17-156). -/
def get_chat_response_stream (sbeh : StreamBehavior) (message : String)
    (specific_provider : Option String) (timeout : ℚ) : StreamResult :=
  let sp := specific_provider.getD "Qwen_Qwen_2_72B"
  let model := modelFor sp
  let t := floorTimeout sp timeout
  let cap := capabilityOf sp
  match sbeh cap model t with
  | some src => .streaming sp model src
  | none => tryBackupsStream sbeh sp t backup_providers

/-- The timeout preprocessing of the `/python/chat/stream` endpoint
(lines 332-337): milliseconds divided by 1000; values ≤ 0 or > 60 seconds are
replaced by the default 20 (there is no clamping to the nearest bound). -/
def chat_stream_timeout (timeout_ms : Option ℚ) : ℚ :=
  let t := (timeout_ms.getD 20000) / 1000
  if t ≤ 0 ∨ 60 < t then 20 else t

/-- The `/python/chat/stream` pipeline: preprocess the timeout, dispatch in
streaming mode, relay the frames (lines 320-350 composed with 171-219). -/
def stream_chat_events (sbeh : StreamBehavior) (message : String)
    (provider : Option String) (timeout_ms : Option ℚ) : List SEvent :=
  relayEvents message
    (get_chat_response_stream sbeh message provider (chat_stream_timeout timeout_ms))

/-- HTTP outcome of the `/python/chat` endpoint: a JSON body (status 200) or
the missing-message 400. -/
inductive ChatHttp where
  | ok (result : ChatResult)
  | badRequest (err : String)
deriving DecidableEq, Repr

/-- The `/python/chat` endpoint (lines 221-244): empty or missing message is a
400; otherwise the result of `get_chat_response` with the default timeout of
20 seconds is returned as-is. -/
def chat (beh : Behavior) (body_message body_provider : Option String) : ChatHttp :=
  let message := body_message.getD ""
  let provider_name := body_provider.getD "Qwen_Qwen_2_72B"
  if message == "" then .badRequest "Отсутствует сообщение"
  else .ok (get_chat_response beh message (some provider_name) 20).1

end G4F

namespace StreamServer

/-- Response body of the `/test-provider/<name>` endpoint of
`stream_server.py` (lines 188-219), with `none` for absent JSON keys. -/
structure TPResp where
  status : String
  message : String
  error : Option String
  requires_api_key : Option Bool
  response : Option String
deriving DecidableEq, Repr

/-- The credential-error sniffing at line 212. -/
def requiresApiKey (e : String) : Bool :=
  ["api_key", "apikey", "key", "token"].any (fun k => G4F.substrB k (G4F.pyLower e))

/-- `test_provider` (lines 188-219): `registry` is the name set of the
`providers` dictionary built at import time, `probe` the one-shot completion
call.  Returns the response body and the number of provider invocations
performed. -/
def test_provider (registry : List String) (probe : String → Except String String)
    (name : String) : TPResp × Nat :=
  if registry.contains name then
    match probe name with
    | .ok r =>
      ({ status := "ok"
         message := "Провайдер " ++ name ++ " доступен"
         error := none
         requires_api_key := some false
         response := some (r.take 100) }, 1)
    | .error e =>
      ({ status := "error"
         message := "Ошибка при проверке провайдера " ++ name
         error := some e
         requires_api_key := some (requiresApiKey e)
         response := none }, 1)
  else
    ({ status := "error"
       message := "Провайдер " ++ name ++ " не найден"
       error := none
       requires_api_key := none
       response := none }, 0)

end StreamServer

namespace Raster2Svg

/-- `binary[y, x]` of `simple_trace` (`raster2svg.py`, line 29): the grayscale
pixel is strictly below the threshold. -/
def binaryAt (img : Nat → Nat → Nat) (threshold y x : Nat) : Bool :=
  decide (img y x < threshold)

/-- `simple_trace` (lines 21-43): scan `y` over `range(1, height-1)` and `x`
over `range(1, width-1)`; collect `(x, y)` when the pixel is below threshold
and at least one orthogonal neighbour is not. -/
def simple_trace (img : Nat → Nat → Nat) (width height threshold : Nat) :
    List (Nat × Nat) :=
  (List.range' 1 (height - 2)).flatMap (fun y =>
    (List.range' 1 (width - 2)).filterMap (fun x =>
      if binaryAt img threshold y x
         && (!binaryAt img threshold (y - 1) x || !binaryAt img threshold (y + 1) x
             || !binaryAt img threshold y (x - 1) || !binaryAt img threshold y (x + 1))
      then some (x, y) else none))

end Raster2Svg

namespace G4F

/-- Characterization of the backup loop: it acts on the backup list with the
failed provider name filtered out; the result is the first success found (or
the exhaustion dictionary), and the attempt trace extends `acc` with exactly
the failed backups tried before that point (all at the same timeout `t`). -/
theorem tryBackups_eq (beh : Behavior) (sp : String) (t : ℚ) (acc : List Attempt)
    (l : List String) :
    tryBackups beh sp t acc l =
      match (l.filter (fun b => b != sp)).find?
          (fun b => (beh b (backupModelFor b) t).isSome) with
      | some b =>
        ({ success := true, response := (beh b (backupModelFor b) t).getD "",
           provider := b, model := backupModelFor b },
         acc ++ ((l.filter (fun b => b != sp)).takeWhile
             (fun b => !(beh b (backupModelFor b) t).isSome)).map
             (fun b => (⟨b, backupModelFor b, t⟩ : Attempt)) ++ [⟨b, backupModelFor b, t⟩])
      | none =>
        (exhaustResult sp,
         acc ++ (l.filter (fun b => b != sp)).map
           (fun b => (⟨b, backupModelFor b, t⟩ : Attempt))) := by
  induction l generalizing acc with
  | nil => simp [tryBackups]
  | cons b rest ih =>
    simp only [tryBackups]
    by_cases hb : (b == sp) = true
    · rw [if_pos hb, ih,
        @List.filter_cons_of_neg _ (fun x => x != sp) b rest (by simp [bne, hb])]
    · rw [if_neg hb,
        @List.filter_cons_of_pos _ (fun x => x != sp) b rest (by simp [bne, hb])]
      rcases hbeh : beh b (backupModelFor b) t with _ | text
      · rw [@List.find?_cons_of_neg _ (fun x => (beh x (backupModelFor x) t).isSome)
            b (rest.filter (fun x => x != sp)) (by simp [hbeh]),
          @List.takeWhile_cons_of_pos _ (fun x => !(beh x (backupModelFor x) t).isSome)
            b (rest.filter (fun x => x != sp)) (by simp [hbeh])]
        simp only [hbeh]
        rw [ih]
        rcases hfind : (rest.filter (fun x => x != sp)).find?
            (fun x => (beh x (backupModelFor x) t).isSome) with _ | b'
        · simp [List.append_assoc]
        · simp [List.append_assoc]
      · rw [@List.find?_cons_of_pos _ (fun x => (beh x (backupModelFor x) t).isSome)
            b (rest.filter (fun x => x != sp)) (by simp [hbeh]),
          @List.takeWhile_cons_of_neg _ (fun x => !(beh x (backupModelFor x) t).isSome)
            b (rest.filter (fun x => x != sp)) (by simp [hbeh])]
        simp [hbeh]

/-- Every result of the backup loop reports `success = true`. -/
theorem tryBackups_success (beh : Behavior) (sp : String) (t : ℚ) (acc : List Attempt)
    (l : List String) : (tryBackups beh sp t acc l).1.success = true := by
  rw [tryBackups_eq]
  split <;> rfl

/-- Every result dictionary of `get_chat_response` has `success = true`. -/
theorem get_chat_response_success (beh : Behavior) (msg : String)
    (sp? : Option String) (t : ℚ) :
    (get_chat_response beh msg sp? t).1.success = true := by
  rw [get_chat_response]
  rcases h : beh (capabilityOf (sp?.getD "Qwen_Qwen_2_72B"))
      (modelFor (sp?.getD "Qwen_Qwen_2_72B"))
      (floorTimeout (sp?.getD "Qwen_Qwen_2_72B") t) with _ | text
  · simp only [h, tryBackups_success]
  · simp only [h]

/-- The backup loop only appends to the attempt trace, and the provider names
it appends form a take-front of the filtered backup list. -/
theorem tryBackups_trace (beh : Behavior) (sp : String) (t : ℚ) :
    ∀ (l : List String) (acc : List Attempt), ∃ rest,
      (tryBackups beh sp t acc l).2 = acc ++ rest ∧
      ∃ n, rest.map Attempt.provider = (l.filter (fun b => b != sp)).take n := by
  intro l
  induction l with
  | nil => exact fun acc => ⟨[], by simp [tryBackups], 0, by simp⟩
  | cons b rest ih =>
    intro acc
    by_cases hb : (b == sp) = true
    · obtain ⟨r, hr, n, hn⟩ := ih acc
      refine ⟨r, ?_, n, ?_⟩
      · simp only [tryBackups]; rw [if_pos hb]; exact hr
      · rw [@List.filter_cons_of_neg _ (fun x => x != sp) b rest (by simp [bne, hb])]
        exact hn
    · have hfil := @List.filter_cons_of_pos _ (fun x => x != sp) b rest (by simp [bne, hb])
      rcases hbeh : beh b (backupModelFor b) t with _ | text
      · obtain ⟨r, hr, n, hn⟩ := ih (acc ++ [⟨b, backupModelFor b, t⟩])
        refine ⟨⟨b, backupModelFor b, t⟩ :: r, ?_, n + 1, ?_⟩
        · simp only [tryBackups]
          rw [if_neg hb]
          simp only [hbeh]
          rw [hr, List.append_assoc]
          rfl
        · rw [hfil]
          simp [hn]
      · refine ⟨[⟨b, backupModelFor b, t⟩], ?_, 1, ?_⟩
        · simp only [tryBackups]
          rw [if_neg hb]
          simp only [hbeh]
        · rw [hfil]
          simp

/-- Appending the `_fallback` suffix always changes a string. -/
theorem append_fallback_ne (s : String) : s ++ "_fallback" ≠ s := by
  intro h
  have h2 := congrArg String.length h
  have h9 : "_fallback".length = 9 := rfl
  rw [String.length_append, h9] at h2
  omega

/-- Every backup provider name is registered in the provider map. -/
theorem backup_subset : ∀ b ∈ backup_providers, b ∈ provider_map_names := by decide

/-- The backup list has no duplicate names. -/
theorem backup_nodup : backup_providers.Nodup := by decide

/-- `get_demo_response` never returns the empty string. -/
theorem get_demo_response_ne_empty (message : String) :
    get_demo_response message ≠ "" := by
  rw [get_demo_response]
  split
  · decide
  · split
    · decide
    · split <;> decide

/-- Shared exhaustion lemma: when the initial attempt and every applicable
backup fail, `get_chat_response` returns the synthetic fallback dictionary. -/
theorem get_chat_response_exhaust (beh : Behavior) (msg sp : String) (t : ℚ)
    (h0 : beh (capabilityOf sp) (modelFor sp) (floorTimeout sp t) = none)
    (hb : ∀ b ∈ backup_providers, b ≠ sp →
        beh b (backupModelFor b) (floorTimeout sp t) = none) :
    (get_chat_response beh msg (some sp) t).1 = exhaustResult sp := by
  have hfind : (backup_providers.filter (fun b => b != sp)).find?
      (fun b => (beh b (backupModelFor b) (floorTimeout sp t)).isSome) = none := by
    rw [List.find?_eq_none]
    intro b hbmem
    rw [List.mem_filter] at hbmem
    have hne : b ≠ sp := by simpa [bne] using hbmem.2
    simp [hb b hbmem.1 hne]
  rw [get_chat_response]
  simp only [Option.getD_some, h0, tryBackups_eq, hfind]

/-- Helper for C5: running the chunk loop over a prefix without HTML followed
by an HTML chunk emits the prefix chunk events, one error event, and the done
event with the text accumulated so far; the HTML chunk and everything after it
produce no chunk event. -/
theorem streamLoop_html (message p m : String) (raises : Option String) (c : String)
    (post : List String) :
    ∀ (pre : List String) (acc : String),
      (∀ a ∈ pre, htmlIn a = false) → htmlIn c = true →
      streamLoop message p m raises (pre ++ c :: post) acc =
        pre.map (fun ch => SEvent.chunk ch p) ++
          [SEvent.error htmlBlockMsg,
           SEvent.done (pre.foldl (fun a b => a ++ b) acc) p m] := by
  intro pre
  induction pre with
  | nil =>
    intro acc _ hc
    simp [streamLoop, hc]
  | cons a pre ih =>
    intro acc hpre hc
    have ha : htmlIn a = false := hpre a (by simp)
    simp only [List.cons_append, streamLoop, ha, Bool.false_eq_true, if_false,
      List.map_cons, List.foldl_cons, List.append_eq]
    rw [ih (acc ++ a) (fun x hx => hpre x (by simp [hx])) hc]

/-- C1: when the preferred provider's attempt and every backup attempt fail,
`get_chat_response` returns a soft-failure result: `success = true`, the
generic apology text, the preferred name with the `_fallback` suffix, and
model `"fallback"`; no exhaustion path returns a hard error (the function has
no error-shaped return at all). -/
theorem exhaustion_soft_failure (beh : Behavior) (msg sp : String) (t : ℚ)
    (h0 : beh (capabilityOf sp) (modelFor sp) (floorTimeout sp t) = none)
    (hb : ∀ b ∈ backup_providers, b ≠ sp →
        beh b (backupModelFor b) (floorTimeout sp t) = none) :
    (get_chat_response beh msg (some sp) t).1 =
      { success := true
        response := "Извините, возникла проблема с провайдером " ++ sp ++ ". Попробуйте еще раз."
        provider := sp ++ "_fallback"
        model := "fallback" } :=
  get_chat_response_exhaust beh msg sp t h0 hb

/-- Witness for C1 at a concrete failing behavior. -/
theorem exhaustion_soft_failure_witness :
    (get_chat_response (fun _ _ _ => none) "hello" (some "FreeGpt") 20).1 =
      { success := true
        response := "Извините, возникла проблема с провайдером FreeGpt. Попробуйте еще раз."
        provider := "FreeGpt_fallback"
        model := "fallback" } :=
  (exhaustion_soft_failure (fun _ _ _ => none) "hello" "FreeGpt" 20 rfl
    (fun _ _ _ => rfl)).trans (by decide)

/-- C2 counterexample: the claim that each backup attempt recomputes the
effective timeout with the backup's own floor is false.  With preferred
provider `FreeGpt` (no floor) and caller timeout 5s, the backup attempt on
`Qwen_Qwen_2_72B` is made with timeout 5, not with its 45s floor. -/
theorem backup_timeout_not_refloored_cex :
    (get_chat_response
        (fun c _ _ => if c == "Qwen_Qwen_2_72B" then some "ok" else none)
        "m" (some "FreeGpt") 5).2 =
      [⟨"FreeGpt", "gpt-4o-mini", 5⟩, ⟨"Qwen_Qwen_2_72B", "qwen-2.5-72b", 5⟩] ∧
    max (5 : ℚ) 45 ≠ 5 := by
  refine ⟨rfl, by norm_num⟩

/-- C2 (amended): on failure of the initial attempt, the backups are tried in
the literal fixed order of the backup list with the preferred name filtered
out, the first success wins and ends the pass, at most one pass is made with
no repeated attempts, and every backup attempt reuses the effective timeout
computed for the initial provider (it is NOT recomputed with the backup's own
floor). -/
theorem backup_failover_characterization (beh : Behavior) (msg sp : String) (t : ℚ)
    (h0 : beh (capabilityOf sp) (modelFor sp) (floorTimeout sp t) = none) :
    (get_chat_response beh msg (some sp) t =
      match (backup_providers.filter (fun b => b != sp)).find?
          (fun b => (beh b (backupModelFor b) (floorTimeout sp t)).isSome) with
      | some b =>
        ({ success := true,
           response := (beh b (backupModelFor b) (floorTimeout sp t)).getD "",
           provider := b, model := backupModelFor b },
         ⟨capabilityOf sp, modelFor sp, floorTimeout sp t⟩ ::
           (((backup_providers.filter (fun b => b != sp)).takeWhile
               (fun b => !(beh b (backupModelFor b) (floorTimeout sp t)).isSome)).map
             (fun b => (⟨b, backupModelFor b, floorTimeout sp t⟩ : Attempt)) ++
            [⟨b, backupModelFor b, floorTimeout sp t⟩]))
      | none =>
        (exhaustResult sp,
         ⟨capabilityOf sp, modelFor sp, floorTimeout sp t⟩ ::
           (backup_providers.filter (fun b => b != sp)).map
             (fun b => (⟨b, backupModelFor b, floorTimeout sp t⟩ : Attempt)))) ∧
    (∃ n, (get_chat_response beh msg (some sp) t).2.tail.map Attempt.provider =
        (backup_providers.filter (fun b => b != sp)).take n) ∧
    ((get_chat_response beh msg (some sp) t).2.tail.map Attempt.provider).Nodup := by
  have hgc : get_chat_response beh msg (some sp) t =
      tryBackups beh sp (floorTimeout sp t)
        [⟨capabilityOf sp, modelFor sp, floorTimeout sp t⟩] backup_providers := by
    rw [get_chat_response]
    simp only [Option.getD_some, h0]
  obtain ⟨rest, hr, n, hn⟩ := tryBackups_trace beh sp (floorTimeout sp t)
    backup_providers [⟨capabilityOf sp, modelFor sp, floorTimeout sp t⟩]
  have htail : (get_chat_response beh msg (some sp) t).2.tail.map Attempt.provider =
      (backup_providers.filter (fun b => b != sp)).take n := by
    rw [hgc, hr]
    simpa using hn
  refine ⟨?_, ⟨n, htail⟩, ?_⟩
  · rw [hgc, tryBackups_eq]
    rcases hfind : (backup_providers.filter (fun b => b != sp)).find?
        (fun b => (beh b (backupModelFor b) (floorTimeout sp t)).isSome) with _ | b
    · simp
    · simp
  · rw [htail]
    exact List.Nodup.sublist (List.take_sublist n _) (backup_nodup.filter _)

/-- Witness for C2: initial provider fails, first backup fails, second backup
succeeds; trace shows the fixed order and the reused timeout. -/
theorem backup_failover_characterization_witness :
    get_chat_response
        (fun c _ _ => if c == "Qwen_Qwen_2_5_Max" then some "ok" else none)
        "m" (some "FreeGpt") 5 =
      ({ success := true, response := "ok",
         provider := "Qwen_Qwen_2_5_Max", model := "qwen-max" },
       [⟨"FreeGpt", "gpt-4o-mini", 5⟩, ⟨"Qwen_Qwen_2_72B", "qwen-2.5-72b", 5⟩,
        ⟨"Qwen_Qwen_2_5_Max", "qwen-max", 5⟩]) :=
  (backup_failover_characterization
    (fun c _ _ => if c == "Qwen_Qwen_2_5_Max" then some "ok" else none)
    "m" "FreeGpt" 5 rfl).1.trans (by decide)

/-- C3 counterexample: for the unregistered name `Bogus`, a successful first
attempt (served by the default capability) is labelled with the requested
name itself, so `provider_used` CAN equal the originally requested
(unavailable) name, contradicting the claim. -/
theorem unregistered_label_cex :
    "Bogus" ∉ provider_map_names ∧
    (get_chat_response (fun _ _ _ => some "hello") "msg" (some "Bogus") 20).1.provider =
      "Bogus" :=
  ⟨by decide, rfl⟩

/-- C3 (amended): for an unregistered preferred name the dispatcher invokes
the default `Qwen_Qwen_2_72B` capability; when that initial attempt fails,
the final `provider` field never equals the requested name (it is either a
registered backup name or the requested name with `_fallback` appended) —
but a successful initial attempt is labelled with the requested name. -/
theorem unregistered_provider_fallback (beh : Behavior) (msg sp : String) (t : ℚ)
    (h : sp ∉ provider_map_names)
    (h0 : beh (capabilityOf sp) (modelFor sp) (floorTimeout sp t) = none) :
    (get_chat_response beh msg (some sp) t).2.head?.map Attempt.provider =
        some "Qwen_Qwen_2_72B" ∧
    (get_chat_response beh msg (some sp) t).1.provider ≠ sp := by
  have hcap : capabilityOf sp = "Qwen_Qwen_2_72B" := by
    rw [capabilityOf, if_neg]
    simp [List.contains, h]
  have hgc : get_chat_response beh msg (some sp) t =
      tryBackups beh sp (floorTimeout sp t)
        [⟨capabilityOf sp, modelFor sp, floorTimeout sp t⟩] backup_providers := by
    rw [get_chat_response]
    simp only [Option.getD_some, h0]
  constructor
  · obtain ⟨rest, hr, -⟩ := tryBackups_trace beh sp (floorTimeout sp t)
      backup_providers [⟨capabilityOf sp, modelFor sp, floorTimeout sp t⟩]
    rw [hgc, hr]
    simp [hcap]
  · rw [hgc, tryBackups_eq]
    rcases hfind : (backup_providers.filter (fun b => b != sp)).find?
        (fun b => (beh b (backupModelFor b) (floorTimeout sp t)).isSome) with _ | b
    · exact append_fallback_ne sp
    · intro hcon
      exact h (hcon ▸ backup_subset b
        (List.mem_filter.mp (List.mem_of_find?_eq_some hfind)).1)

/-- Witness for C3 at the unregistered name `Bogus` with a failing behavior. -/
theorem unregistered_provider_fallback_witness :
    (get_chat_response (fun _ _ _ => none) "m" (some "Bogus") 20).2.head?.map
        Attempt.provider = some "Qwen_Qwen_2_72B" ∧
    (get_chat_response (fun _ _ _ => none) "m" (some "Bogus") 20).1.provider ≠ "Bogus" :=
  unregistered_provider_fallback (fun _ _ _ => none) "m" "Bogus" 20 (by decide) rfl

/-- C4 counterexample: the stream endpoint does not clamp the caller timeout
to [1, 60] seconds — a 120000ms request yields the default 20s, not the
clamped 60s. -/
theorem stream_timeout_not_clamped_cex :
    chat_stream_timeout (some 120000) = 20 ∧
    min (max ((120000 : ℚ) / 1000) 1) 60 = 60 ∧ (20 : ℚ) ≠ 60 := by
  refine ⟨by norm_num [chat_stream_timeout], by norm_num, by norm_num⟩

/-- C4 (amended): the effective timeout of the initial attempt is
`max(t, 45)` for `Qwen_Qwen_2_72B`, `max(t, 30)` for `Qwen_Qwen_2_5_Max` and
`Qwen_Qwen_2_5`, and the caller timeout unmodified for every other provider;
the stream endpoint passes millisecond timeouts in (0, 60000] through as
seconds unmodified (even below 1s) and replaces values ≤ 0 or > 60000 by the
default 20s rather than clamping them. -/
theorem effective_timeout_floors (beh : Behavior) (msg sp : String) (t : ℚ) :
    (get_chat_response beh msg (some sp) t).2.head?.map Attempt.timeout =
      some (if sp = "Qwen_Qwen_2_72B" then max t 45
            else if sp = "Qwen_Qwen_2_5_Max" ∨ sp = "Qwen_Qwen_2_5" then max t 30
            else t) ∧
    (∀ q : ℚ, 0 < q → q ≤ 60000 → chat_stream_timeout (some q) = q / 1000) ∧
    (∀ q : ℚ, 60000 < q → chat_stream_timeout (some q) = 20) ∧
    (∀ q : ℚ, q ≤ 0 → chat_stream_timeout (some q) = 20) := by
  refine ⟨?_, ?_, ?_, ?_⟩
  · have hf : floorTimeout sp t =
        if sp = "Qwen_Qwen_2_72B" then max t 45
        else if sp = "Qwen_Qwen_2_5_Max" ∨ sp = "Qwen_Qwen_2_5" then max t 30
        else t := by
      simp [floorTimeout]
    rw [get_chat_response]
    rcases hbeh : beh (capabilityOf sp) (modelFor sp) (floorTimeout sp t) with _ | text
    · simp only [Option.getD_some, hbeh]
      obtain ⟨rest, hr, -⟩ := tryBackups_trace beh sp (floorTimeout sp t)
        backup_providers [⟨capabilityOf sp, modelFor sp, floorTimeout sp t⟩]
      rw [hr]
      simp [hf]
    · simp only [Option.getD_some, hbeh]
      simp [hf]
  · intro q h1 h2
    simp only [chat_stream_timeout, Option.getD_some]
    rw [if_neg]
    push_neg
    refine ⟨by positivity, ?_⟩
    rw [div_le_iff₀ (by norm_num : (0 : ℚ) < 1000)]
    linarith
  · intro q h1
    simp only [chat_stream_timeout, Option.getD_some]
    rw [if_pos]
    right
    rw [lt_div_iff₀ (by norm_num : (0 : ℚ) < 1000)]
    linarith
  · intro q h1
    simp only [chat_stream_timeout, Option.getD_some]
    rw [if_pos]
    left
    rw [div_nonpos_iff]
    right
    exact ⟨h1, by norm_num⟩

/-- Witness for C4: the 45s floor applies to the initial attempt on the 72B
provider, and an in-range 30000ms stream timeout passes through as 30s. -/
theorem effective_timeout_floors_witness :
    ((get_chat_response (fun _ _ _ => none) "m" (some "Qwen_Qwen_2_72B") 5).2.head?.map
        Attempt.timeout = some 45) ∧
    chat_stream_timeout (some 30000) = 30 := by
  have h := effective_timeout_floors (fun _ _ _ => none) "m" "Qwen_Qwen_2_72B" 5
  refine ⟨h.1.trans (by norm_num), ?_⟩
  have h2 := h.2.1 30000 (by norm_num) (by norm_num)
  rw [h2]
  norm_num

/-- C5: if a chunk of the relayed stream case-insensitively contains the
substring `<html`, the relay emits an error event at that point and no chunk
event is emitted for that chunk or for anything after it (a final done event
with the text accumulated so far follows the error event). -/
theorem html_chunk_aborts (message p m : String) (raises : Option String)
    (pre post : List String) (c : String)
    (hpre : ∀ a ∈ pre, htmlIn a = false) (hc : htmlIn c = true) :
    relayEvents message (.streaming p m ⟨pre ++ c :: post, raises⟩) =
      SEvent.start p :: (pre.map (fun ch => SEvent.chunk ch p) ++
        [SEvent.error htmlBlockMsg,
         SEvent.done (pre.foldl (fun a b => a ++ b) "") p m]) := by
  simp only [relayEvents]
  rw [streamLoop_html message p m raises c post pre "" hpre hc]

/-- Witness for C5 on a concrete stream with an HTML chunk in the middle. -/
theorem html_chunk_aborts_witness :
    relayEvents "m" (.streaming "P" "M" ⟨["He", "llo", "<HTML>", "tail"], none⟩) =
      [SEvent.start "P", SEvent.chunk "He" "P", SEvent.chunk "llo" "P",
       SEvent.error htmlBlockMsg, SEvent.done "Hello" "P" "M"] :=
  (html_chunk_aborts "m" "P" "M" none ["He", "llo"] ["tail"] "<HTML>"
    (by decide) (by decide)).trans (by decide)

/-- C6: when the streaming capability raises before producing any chunk, the
relay emits an error event, then the Fallback Responder's text for the
message, and the finite frame sequence ends with a done event whose text
payload is non-empty — never a bare error. -/
theorem stream_raise_fallback (sbeh : StreamBehavior) (message : String)
    (provider : Option String) (timeout_ms : Option ℚ) (p m e : String)
    (h : get_chat_response_stream sbeh message provider (chat_stream_timeout timeout_ms) =
        .streaming p m ⟨[], some e⟩) :
    stream_chat_events sbeh message provider timeout_ms =
      [SEvent.start p, SEvent.error e,
       SEvent.text (get_demo_response message) "BOOOMERANGS-Error",
       SEvent.done (get_demo_response message) "BOOOMERANGS-Error" "error-mode"] ∧
    get_demo_response message ≠ "" := by
  constructor
  · rw [stream_chat_events, h]
    rfl
  · exact get_demo_response_ne_empty message

/-- Witness for C6: the capability raises immediately with message `boom`. -/
theorem stream_raise_fallback_witness :
    stream_chat_events (fun _ _ _ => some ⟨[], some "boom"⟩) "hi" (some "FreeGpt") none =
      [SEvent.start "FreeGpt", SEvent.error "boom",
       SEvent.text "Привет! Рад вас видеть! 😊 Я BOOOMERANGS AI - ваш творческий помощник. Чем могу помочь?" "BOOOMERANGS-Error",
       SEvent.done "Привет! Рад вас видеть! 😊 Я BOOOMERANGS AI - ваш творческий помощник. Чем могу помочь?" "BOOOMERANGS-Error" "error-mode"] ∧
    get_demo_response "hi" ≠ "" := by
  have h := stream_raise_fallback (fun _ _ _ => some ⟨[], some "boom"⟩) "hi"
    (some "FreeGpt") none "FreeGpt" "gpt-4o-mini" "boom" rfl
  exact ⟨h.1.trans (by decide), h.2⟩

/-- C7: every well-formed chat request (non-empty message) is answered by the
chat endpoint with an HTTP-200 envelope whose `success` field is `true`,
whatever the providers do — including total exhaustion. -/
theorem chat_always_success (beh : Behavior) (message : String)
    (body_provider : Option String) (h : message ≠ "") :
    ∃ r, chat beh (some message) body_provider = ChatHttp.ok r ∧ r.success = true := by
  refine ⟨(get_chat_response beh message
      (some (body_provider.getD "Qwen_Qwen_2_72B")) 20).1, ?_,
    get_chat_response_success beh message _ 20⟩
  simp only [chat, Option.getD_some]
  rw [if_neg (by simpa using h)]

/-- Witness for C7 at a concrete request. -/
theorem chat_always_success_witness :
    ∃ r, chat (fun _ _ _ => some "ok") (some "hi") none = ChatHttp.ok r ∧
      r.success = true :=
  chat_always_success (fun _ _ _ => some "ok") "hi" none (by decide)

/-- C8 counterexample: for the message `привет` under total exhaustion the
returned text is the generic apology mentioning the provider, which differs
from the greeting string of the Fallback Responder. -/
theorem privet_exhaustion_cex :
    (get_chat_response (fun _ _ _ => none) "привет" (some "Qwen_Qwen_2_5M") 20).1.response =
      "Извините, возникла проблема с провайдером Qwen_Qwen_2_5M. Попробуйте еще раз." ∧
    get_demo_response "привет" =
      "Привет! Рад вас видеть! 😊 Я BOOOMERANGS AI - ваш творческий помощник. Чем могу помочь?" ∧
    (get_chat_response (fun _ _ _ => none) "привет" (some "Qwen_Qwen_2_5M") 20).1.response ≠
      get_demo_response "привет" :=
  ⟨rfl, by decide, by decide⟩

/-- C8 (amended): for the message `привет` under total exhaustion the
response text is the generic apology naming the preferred provider (not the
greeting fallback string), and the provider field ends with `_fallback`. -/
theorem privet_exhaustion_apology (beh : Behavior) (sp : String) (t : ℚ)
    (h0 : beh (capabilityOf sp) (modelFor sp) (floorTimeout sp t) = none)
    (hb : ∀ b ∈ backup_providers, b ≠ sp →
        beh b (backupModelFor b) (floorTimeout sp t) = none) :
    (get_chat_response beh "привет" (some sp) t).1.response =
      "Извините, возникла проблема с провайдером " ++ sp ++ ". Попробуйте еще раз." ∧
    ∃ s, (get_chat_response beh "привет" (some sp) t).1.provider = s ++ "_fallback" := by
  have h := get_chat_response_exhaust beh "привет" sp t h0 hb
  rw [h]
  exact ⟨rfl, sp, rfl⟩

/-- Witness for C8 with every attempt failing. -/
theorem privet_exhaustion_apology_witness :
    (get_chat_response (fun _ _ _ => none) "привет" (some "FreeGpt") 20).1.response =
      "Извините, возникла проблема с провайдером FreeGpt. Попробуйте еще раз." ∧
    ∃ s, (get_chat_response (fun _ _ _ => none) "привет" (some "FreeGpt") 20).1.provider =
      s ++ "_fallback" := by
  have h := privet_exhaustion_apology (fun _ _ _ => none) "FreeGpt" 20 rfl
    (fun _ _ _ => rfl)
  exact ⟨h.1.trans (by decide), h.2⟩

end G4F

namespace StreamServer

/-- C9: for an unregistered provider name the `/test-provider/{name}`
endpoint returns the same "not found" shape on every call, independent of
the probe, and performs zero provider invocations. -/
theorem test_provider_unregistered (registry : List String) (name : String)
    (h : name ∉ registry) :
    (∀ probe1 probe2 : String → Except String String,
        test_provider registry probe1 name = test_provider registry probe2 name) ∧
    ∀ probe : String → Except String String,
      test_provider registry probe name =
        ({ status := "error", message := "Провайдер " ++ name ++ " не найден",
           error := none, requires_api_key := none, response := none }, 0) := by
  have hc : ¬ (registry.contains name = true) := by
    simp [List.contains, h]
  constructor
  · intro probe1 probe2
    rw [test_provider, test_provider, if_neg hc, if_neg hc]
  · intro probe
    rw [test_provider, if_neg hc]

/-- Witness for C9: two calls with different probes on `Bogus`. -/
theorem test_provider_unregistered_witness :
    (test_provider ["You", "DeepInfra"] (fun _ => Except.ok "resp") "Bogus" =
      test_provider ["You", "DeepInfra"] (fun _ => Except.error "api_key missing") "Bogus") ∧
    test_provider ["You", "DeepInfra"] (fun _ => Except.ok "resp") "Bogus" =
      ({ status := "error", message := "Провайдер Bogus не найден",
         error := none, requires_api_key := none, response := none }, 0) := by
  have h := test_provider_unregistered ["You", "DeepInfra"] "Bogus" (by decide)
  exact ⟨h.1 _ _, (h.2 _).trans (by decide)⟩

end StreamServer

namespace Raster2Svg

/-- C10: every coordinate pair in the output of `simple_trace` lies strictly
inside the image (`1 ≤ x ≤ width-2`, `1 ≤ y ≤ height-2`), its pixel is below
the threshold, at least one orthogonal neighbour is not below the threshold,
and no border pixel ever appears. -/
theorem simple_trace_sound (img : Nat → Nat → Nat) (width height threshold : Nat)
    (x y : Nat) (hmem : (x, y) ∈ simple_trace img width height threshold) :
    (1 ≤ x ∧ x ≤ width - 2) ∧ (1 ≤ y ∧ y ≤ height - 2) ∧
    img y x < threshold ∧
    (threshold ≤ img (y - 1) x ∨ threshold ≤ img (y + 1) x ∨
     threshold ≤ img y (x - 1) ∨ threshold ≤ img y (x + 1)) ∧
    (x ≠ 0 ∧ x + 1 ≠ width ∧ y ≠ 0 ∧ y + 1 ≠ height) := by
  rw [simple_trace] at hmem
  simp only [List.mem_flatMap, List.mem_filterMap] at hmem
  obtain ⟨y', hy', x', hx', hif⟩ := hmem
  rw [List.mem_range'] at hy' hx'
  obtain ⟨i, hi, rfl⟩ := hy'
  obtain ⟨j, hj, rfl⟩ := hx'
  by_cases hcond : (binaryAt img threshold (1 + 1 * i) (1 + 1 * j)
      && (!binaryAt img threshold (1 + 1 * i - 1) (1 + 1 * j)
          || !binaryAt img threshold (1 + 1 * i + 1) (1 + 1 * j)
          || !binaryAt img threshold (1 + 1 * i) (1 + 1 * j - 1)
          || !binaryAt img threshold (1 + 1 * i) (1 + 1 * j + 1))) = true
  · rw [if_pos hcond] at hif
    obtain ⟨hx, hy⟩ : 1 + 1 * j = x ∧ 1 + 1 * i = y := by
      have := Option.some.inj hif
      exact ⟨congrArg Prod.fst this, congrArg Prod.snd this⟩
    subst hx
    subst hy
    simp only [binaryAt, Bool.and_eq_true, Bool.or_eq_true, Bool.not_eq_true',
      decide_eq_true_iff, decide_eq_false_iff_not, Nat.not_lt] at hcond
    refine ⟨⟨by omega, by omega⟩, ⟨by omega, by omega⟩, hcond.1, ?_,
      by omega, by omega, by omega, by omega⟩
    rcases hcond.2 with ((h | h) | h) | h
    · exact Or.inl h
    · exact Or.inr (Or.inl h)
    · exact Or.inr (Or.inr (Or.inl h))
    · exact Or.inr (Or.inr (Or.inr h))
  · rw [if_neg hcond] at hif
    exact absurd hif (by simp)

/-- Witness for C10 on a 3×3 image with a single dark centre pixel. -/
theorem simple_trace_sound_witness :
    ((1, 1) ∈ simple_trace (fun y x => if y = 1 ∧ x = 1 then 0 else 255) 3 3 128) ∧
    ((1 ≤ 1 ∧ 1 ≤ 3 - 2) ∧ (1 ≤ 1 ∧ 1 ≤ 3 - 2) ∧
     (fun y x => if y = 1 ∧ x = 1 then 0 else 255) 1 1 < 128 ∧
     (128 ≤ (fun y x => if y = 1 ∧ x = 1 then 0 else 255) (1 - 1) 1 ∨
      128 ≤ (fun y x => if y = 1 ∧ x = 1 then 0 else 255) (1 + 1) 1 ∨
      128 ≤ (fun y x => if y = 1 ∧ x = 1 then 0 else 255) 1 (1 - 1) ∨
      128 ≤ (fun y x => if y = 1 ∧ x = 1 then 0 else 255) 1 (1 + 1)) ∧
     (1 ≠ 0 ∧ 1 + 1 ≠ 3 ∧ 1 ≠ 0 ∧ 1 + 1 ≠ 3)) :=
  ⟨by decide, simple_trace_sound (fun y x => if y = 1 ∧ x = 1 then 0 else 255)
    3 3 128 1 1 (by decide)⟩

end Raster2Svg
